import Mathlib

/-
  Verification development for the shipping-tariff calculator front end.

  Shallow embedding of:
    - src/client/hooks/useWarehouseCheck.ts          (exact-match availability hook)
    - src/unnamed/part_001 (second variant)          (trim+lowercase availability hook)
    - src/client/hooks/useRegionBasedTariffCalculator.ts

  JS numbers that carry ids are modelled as Nat (with the `!id` falsiness
  check made explicit as `id = 0`); JS `number` weights and coordinates are
  modelled as rationals, since every claim under verification concerns only
  exact decimal values, sign and comparisons, never rounding.
-/

-- ### Data model

/-- A service point (warehouse or parcel locker); only the fields the hooks
read are modelled. -/
structure Warehouse where
  id : Nat
  name : String
  city : String
deriving DecidableEq

/-- An API city as consumed by the hooks: `getCityNameById` reads `id` and
`name`; `calculateTariff` reads the (possibly absent) coordinates. -/
structure City where
  id : Nat
  name : String
  center_latitude : Option ℚ
  center_longitude : Option ℚ
deriving DecidableEq

/-- The closed union type of the six tariff strings. -/
inductive TariffType where
  | officeOffice
  | officeDoor
  | doorOffice
  | officePostamat
  | doorPostamat
  | doorDoor
deriving DecidableEq

/-- The string value each member of the TS union denotes. -/
def TariffType.str : TariffType → String
  | .officeOffice => "OFFICE_OFFICE"
  | .officeDoor => "OFFICE_DOOR"
  | .doorOffice => "DOOR_OFFICE"
  | .officePostamat => "OFFICE_POSTAMAT"
  | .doorPostamat => "DOOR_POSTAMAT"
  | .doorDoor => "DOOR_DOOR"

-- ### JS string primitives used by the hooks

/-- Whitespace predicate for JS `trim` / `parseFloat` leading-space skipping. -/
def isWS (c : Char) : Bool :=
  c == ' ' || c == '\t' || c == '\n' || c == '\r'

/-- The first list is a prefix of the second (character lists). -/
def hasPre : List Char → List Char → Bool
  | [], _ => true
  | _ :: _, [] => false
  | a :: as, b :: bs => a == b && hasPre as bs

/-- The first list occurs contiguously inside the second (character lists). -/
def hasSub : List Char → List Char → Bool
  | n, [] => hasPre n []
  | n, b :: bs => hasPre n (b :: bs) || hasSub n bs

/-- JS `s.startsWith(sub)`. -/
def jsStartsWith (s sub : String) : Bool := hasPre sub.data s.data

/-- JS `s.endsWith(sub)`. -/
def jsEndsWith (s sub : String) : Bool := hasPre sub.data.reverse s.data.reverse

/-- JS `s.includes(sub)`. -/
def jsIncludes (s sub : String) : Bool := hasSub sub.data s.data

/-- JS `s.trim()`: strip leading and trailing whitespace. -/
def jsTrim (s : String) : String :=
  ⟨((s.data.dropWhile isWS).reverse.dropWhile isWS).reverse⟩

/-- JS `s.toLowerCase()`, on the ASCII range (the only case mapping needed
by the theorems below, which never fix a particular case table). -/
def jsToLower (s : String) : String := ⟨s.data.map Char.toLower⟩

-- ### useWarehouseCheck.ts - availability index (exact match)

/-- Source `getCityNameById(id)`: `if (!id) return null;` then
`cities.find(c => c.id === id)` and `found?.name || null`. -/
def getCityNameById (cities : List City) (id : Option Nat) : Option String :=
  match id with
  | none => none
  | some i =>
    if i = 0 then none
    else
      match cities.find? (fun c => c.id == i) with
      | none => none
      | some found => if found.name = "" then none else some found.name

/-- Source `hasWarehouse(cityName)`: `if (!cityName) return false;` then
`warehouses.some(w => w.city === cityName)`. -/
def hasWarehouse (warehouses : List Warehouse) (cityName : Option String) : Bool :=
  match cityName with
  | none => false
  | some n => if n = "" then false else warehouses.any (fun w => w.city == n)

/-- Source `hasLocker(cityName)`: same shape as `hasWarehouse` over the
lockers list. -/
def hasLocker (lockers : List Warehouse) (cityName : Option String) : Bool :=
  match cityName with
  | none => false
  | some n => if n = "" then false else lockers.any (fun l => l.city == n)

/-- The JS expression `originCity?.id || null`: optional chaining followed by
falsiness collapse of a zero id. -/
def jsOptId : Option City → Option Nat
  | none => none
  | some c => if c.id = 0 then none else some c.id

/-- Warning messages of `useWarehouseCheck.ts`, abstracted over the i18n
catalog: each constructor is one `t.*` key with its `formatMessage` args. -/
inductive Msg where
  | empty
  | noWarehouses
  | noOriginWarehouse (city : String)
  | noDestinationWarehouse (city : String)
  | noDestinationLocker (city : String)
  | noOriginWarehouseAndDestinationLocker (originCity destinationCity : String)
deriving DecidableEq

/-- Source `shouldShowWarehouseWarning(originCity, destinationCity, tariffType)`
of useWarehouseCheck.ts, returning the `{ show, message }` pair. -/
def shouldShowWarehouseWarning (warehouses lockers : List Warehouse)
    (cities : List City) (loading : Bool)
    (originCity destinationCity : Option City) (tariffType : Option TariffType) :
    Bool × Msg :=
  match tariffType with
  | none => (false, .empty)
  | some tt =>
    if loading then (false, .empty)
    else
      let originCityName := getCityNameById cities (jsOptId originCity)
      let destinationCityName := getCityNameById cities (jsOptId destinationCity)
      let originHasWarehouse := hasWarehouse warehouses originCityName
      let destinationHasWarehouse := hasWarehouse warehouses destinationCityName
      let destinationHasLocker := hasLocker lockers destinationCityName
      match tt with
      | .officeOffice =>
        if !originHasWarehouse && !destinationHasWarehouse then
          (true, .noWarehouses)
        else if !originHasWarehouse then
          (true, .noOriginWarehouse (originCityName.getD ""))
        else if !destinationHasWarehouse then
          (true, .noDestinationWarehouse (destinationCityName.getD ""))
        else (false, .empty)
      | .officeDoor =>
        if !originHasWarehouse then
          (true, .noOriginWarehouse (originCityName.getD ""))
        else (false, .empty)
      | .officePostamat =>
        if !originHasWarehouse && !destinationHasLocker then
          (true, .noOriginWarehouseAndDestinationLocker
            (originCityName.getD "") (destinationCityName.getD ""))
        else if !originHasWarehouse then
          (true, .noOriginWarehouse (originCityName.getD ""))
        else if !destinationHasLocker then
          (true, .noDestinationLocker (destinationCityName.getD ""))
        else (false, .empty)
      | .doorOffice =>
        if !destinationHasWarehouse then
          (true, .noDestinationWarehouse (destinationCityName.getD ""))
        else (false, .empty)
      | .doorPostamat =>
        if !destinationHasLocker then
          (true, .noDestinationLocker (destinationCityName.getD ""))
        else (false, .empty)
      | .doorDoor => (false, .empty)

/-- Source `shouldDisableCalculation(originCity, destinationCity, tariffType)`
of useWarehouseCheck.ts. -/
def shouldDisableCalculation (warehouses lockers : List Warehouse)
    (cities : List City) (loading : Bool)
    (originCity destinationCity : Option City) (tariffType : Option TariffType) :
    Bool :=
  match originCity, destinationCity, tariffType with
  | some originCity, some destinationCity, some tt =>
    if loading then true
    else
      let originCityName := getCityNameById cities (some originCity.id)
      let destinationCityName := getCityNameById cities (some destinationCity.id)
      let originHasWarehouse := hasWarehouse warehouses originCityName
      let destinationHasWarehouse := hasWarehouse warehouses destinationCityName
      let destinationHasLocker := hasLocker lockers destinationCityName
      match tt with
      | .officeOffice => !originHasWarehouse || !destinationHasWarehouse
      | .officeDoor => !originHasWarehouse
      | .doorOffice => !destinationHasWarehouse
      | .officePostamat => !originHasWarehouse || !destinationHasLocker
      | .doorPostamat => !destinationHasLocker
      | .doorDoor => false
  | _, _, _ => true

-- ### useWarehouseCheck.ts - fetchData (load sequence)

/-- Outcome of one `fetch` call: resolved with an OK response carrying the
parsed `data.data?.list || []`, resolved non-OK, or rejected (thrown). -/
inductive FetchOutcome where
  | ok (list : List Warehouse)
  | httpError
  | reject
deriving DecidableEq

/-- Component state produced by one run of `fetchData`. -/
structure LoadResult where
  warehouses : List Warehouse
  lockers : List Warehouse
  error : Option String
  loading : Bool
deriving DecidableEq

/-- Source `fetchData` of useWarehouseCheck.ts: both fetches are awaited
sequentially inside one try block BEFORE either ok-check runs, so a rejection
of either promise reaches the catch with neither list set; a non-OK response
only skips its own `setWarehouses`/`setLockers`. The catch sets the error
string; `finally` clears `loading`. -/
def fetchData (warehousesOutcome lockersOutcome : FetchOutcome) : LoadResult :=
  match warehousesOutcome with
  | .reject => ⟨[], [], some "Ошибка при загрузке данных", false⟩
  | _ =>
    match lockersOutcome with
    | .reject => ⟨[], [], some "Ошибка при загрузке данных", false⟩
    | _ =>
      let ws := match warehousesOutcome with | .ok l => l | _ => []
      let ls := match lockersOutcome with | .ok l => l | _ => []
      ⟨ws, ls, none, false⟩

-- ### src/unnamed/part_001, second variant - normalized availability index

/-- Source `hasWarehouse` of the part_001 trim+lowercase variant:
`if (!cityName || warehouses.length === 0) return false;` then compare
`city.trim().toLowerCase()` on both sides. -/
def hasWarehouseNormalized (warehouses : List Warehouse) (cityName : Option String) : Bool :=
  match cityName with
  | none => false
  | some n =>
    if n = "" ∨ warehouses.length = 0 then false
    else
      let cleanCityName := jsToLower (jsTrim n)
      warehouses.any (fun w => jsToLower (jsTrim w.city) == cleanCityName)

/-- Source `hasLocker` of the part_001 trim+lowercase variant. -/
def hasLockerNormalized (lockers : List Warehouse) (cityName : Option String) : Bool :=
  match cityName with
  | none => false
  | some n =>
    if n = "" ∨ lockers.length = 0 then false
    else
      let cleanCityName := jsToLower (jsTrim n)
      lockers.any (fun l => jsToLower (jsTrim l.city) == cleanCityName)

-- ### useRegionBasedTariffCalculator.ts

/-- Supported UI languages (the keys read from `names` by the hooks). -/
inductive Lang where
  | en
  | ru
  | uz
deriving DecidableEq

/-- Per-language display names of a region city; an absent key is the empty
string (both are falsy in the JS `||` fallbacks). -/
structure CityNames where
  en : String
  ru : String
  uz : String
deriving DecidableEq

/-- Pick the name for one language. -/
def CityNames.pick : CityNames → Lang → String
  | ns, .en => ns.en
  | ns, .ru => ns.ru
  | ns, .uz => ns.uz

/-- A region-scoped city as selected in the form. -/
structure RegionCity where
  shipox_id : Nat
  names : CityNames
deriving DecidableEq

/-- The calculator form state. -/
structure Form where
  originCity : Option RegionCity
  destinationCity : Option RegionCity
  tariffType : Option TariffType
  weight : String
deriving DecidableEq

/-- Source `findApiCityByShipoxId(regionCity)`:
`apiCities.find(city => city.id === regionCity.shipox_id) || null`. -/
def findApiCityByShipoxId (apiCities : List City) (regionCity : RegionCity) : Option City :=
  apiCities.find? (fun city => city.id == regionCity.shipox_id)

/-- Source `convertedOriginCity` / `convertedDestinationCity`:
`form.originCity ? findApiCityByShipoxId(form.originCity) : null`. -/
def convertedCity (apiCities : List City) (rc : Option RegionCity) : Option City :=
  rc.bind (findApiCityByShipoxId apiCities)

/-- Source `getDisplayName(regionCity)`:
`regionCity.names[language] || regionCity.names.en`. -/
def getDisplayName (language : Lang) (regionCity : RegionCity) : String :=
  let v := regionCity.names.pick language
  if v = "" then regionCity.names.en else v

/-- Warning banner kind of the calculator (`type: "info" | "warning"`). -/
inductive BannerType where
  | info
  | warning
deriving DecidableEq

/-- Messages emitted by `createWarehouseWarning`, abstracted over the i18n
catalog; here `noWarehouses` is formatted with both display names. -/
inductive RMsg where
  | empty
  | noWarehouses (origin destination : String)
  | noOriginWarehouse (city : String)
  | noDestinationWarehouse (city : String)
deriving DecidableEq

/-- The `{ show, type, message }` value of `createWarehouseWarning`
(`show` is a Lean keyword, so the field is named `visible`). -/
structure RWarning where
  visible : Bool
  wtype : BannerType
  message : RMsg
deriving DecidableEq

/-- Source `createWarehouseWarning()` of useRegionBasedTariffCalculator.ts.
The `!warehouseData` guard is dropped: the hook object is always truthy. -/
def createWarehouseWarning (apiCities : List City)
    (warehouses lockers : List Warehouse) (language : Lang) (form : Form) :
    RWarning :=
  match form.originCity, form.destinationCity, form.tariffType with
  | some originCity, some destinationCity, some tt =>
    match findApiCityByShipoxId apiCities originCity,
          findApiCityByShipoxId apiCities destinationCity with
    | some convertedOriginCity, some convertedDestinationCity =>
      let requiresWarehouseCheck := jsIncludes tt.str "OFFICE"
      if !requiresWarehouseCheck then ⟨false, .info, .empty⟩
      else
        let hasOriginWarehouse := hasWarehouse warehouses (some convertedOriginCity.name)
        let hasDestinationWarehouse := hasWarehouse warehouses (some convertedDestinationCity.name)
        let hasOriginLocker := hasLocker lockers (some convertedOriginCity.name)
        let hasDestinationLocker := hasLocker lockers (some convertedDestinationCity.name)
        let hasOriginServices := hasOriginWarehouse || hasOriginLocker
        let hasDestinationServices := hasDestinationWarehouse || hasDestinationLocker
        let needsOriginOffice := jsStartsWith tt.str "OFFICE"
        let needsDestinationOffice := jsEndsWith tt.str "OFFICE"
        if needsOriginOffice && needsDestinationOffice &&
            !hasOriginServices && !hasDestinationServices then
          ⟨true, .warning,
            .noWarehouses (getDisplayName language originCity)
              (getDisplayName language destinationCity)⟩
        else if needsOriginOffice && !hasOriginServices then
          ⟨true, .warning, .noOriginWarehouse (getDisplayName language originCity)⟩
        else if needsDestinationOffice && !hasDestinationServices then
          ⟨true, .warning,
            .noDestinationWarehouse (getDisplayName language destinationCity)⟩
        else ⟨false, .info, .empty⟩
    | _, _ => ⟨false, .info, .empty⟩
  | _, _, _ => ⟨false, .info, .empty⟩

/-- Source `isCalculationDisabled()` of useRegionBasedTariffCalculator.ts.
Note the missing-field guard returns FALSE ("let other validation handle
this"), and each end is satisfied by a warehouse OR a locker. -/
def isCalculationDisabled (apiCities : List City)
    (warehouses lockers : List Warehouse) (form : Form) : Bool :=
  match form.originCity, form.destinationCity, form.tariffType with
  | some originCity, some destinationCity, some tt =>
    match findApiCityByShipoxId apiCities originCity,
          findApiCityByShipoxId apiCities destinationCity with
    | some convertedOriginCity, some convertedDestinationCity =>
      let needsOriginOffice := jsStartsWith tt.str "OFFICE"
      let needsDestinationOffice :=
        jsEndsWith tt.str "OFFICE" || jsEndsWith tt.str "POSTAMAT"
      if !needsOriginOffice && !needsDestinationOffice then false
      else
        let hasOriginWarehouse := hasWarehouse warehouses (some convertedOriginCity.name)
        let hasDestinationWarehouse := hasWarehouse warehouses (some convertedDestinationCity.name)
        let hasOriginLocker := hasLocker lockers (some convertedOriginCity.name)
        let hasDestinationLocker := hasLocker lockers (some convertedDestinationCity.name)
        let hasOriginServices := hasOriginWarehouse || hasOriginLocker
        let hasDestinationServices := hasDestinationWarehouse || hasDestinationLocker
        if needsOriginOffice && !hasOriginServices then true
        else if needsDestinationOffice && !hasDestinationServices then true
        else false
    | _, _ => false
  | _, _, _ => false

-- ### parseFloat, isFormValid and calculateTariff

/-- Numeric value of a decimal digit character. -/
def digitToNat (c : Char) : Nat := c.toNat - 48

/-- Value of a digit string read left to right. -/
def natOfDigits (ds : List Char) : Nat :=
  ds.foldl (fun a c => a * 10 + digitToNat c) 0

/-- JS `parseFloat(s)`, modelled exactly over rationals: skip leading
whitespace, optional sign, longest prefix of digits, optional fraction,
optional well-formed exponent; trailing garbage is ignored; `none` is NaN
(no digits at all). The `Infinity` literal and binary64 rounding are not
modelled: no claim under verification depends on them. -/
def jsParseFloat (s : String) : Option ℚ :=
  let cs0 := s.data.dropWhile isWS
  let sgn : Int := match cs0 with
    | '-' :: _ => -1
    | _ => 1
  let cs1 := match cs0 with
    | '-' :: rest => rest
    | '+' :: rest => rest
    | _ => cs0
  let intDigits := cs1.takeWhile Char.isDigit
  let cs2 := cs1.drop intDigits.length
  let fracDigits := match cs2 with
    | '.' :: rest => rest.takeWhile Char.isDigit
    | _ => []
  let cs3 := match cs2 with
    | '.' :: rest => rest.drop fracDigits.length
    | _ => cs2
  if intDigits.isEmpty && fracDigits.isEmpty then none
  else
    let mantNum : Int :=
      sgn * ((natOfDigits intDigits * 10 ^ fracDigits.length + natOfDigits fracDigits : Nat) : Int)
    let mantDen : Nat := 10 ^ fracDigits.length
    let expVal : Int := match cs3 with
      | e :: rest =>
        if e == 'e' || e == 'E' then
          let esgn : Int := match rest with
            | '-' :: _ => -1
            | _ => 1
          let rest2 := match rest with
            | '-' :: r => r
            | '+' :: r => r
            | _ => rest
          let expDigits := rest2.takeWhile Char.isDigit
          if expDigits.isEmpty then 0 else esgn * (natOfDigits expDigits : Int)
        else 0
      | [] => 0
    if 0 ≤ expVal then some (mkRat (mantNum * ((10 ^ expVal.toNat : Nat) : Int)) mantDen)
    else some (mkRat mantNum (mantDen * 10 ^ (-expVal).toNat))

/-- Source `isFormValid()`: all form fields truthy, `parseFloat(form.weight)`
not NaN and positive. -/
def isFormValid (form : Form) : Bool :=
  form.originCity.isSome && form.destinationCity.isSome &&
    form.tariffType.isSome && !(form.weight == "") &&
    (match jsParseFloat form.weight with
     | some w => decide (0 < w)
     | none => false)

/-- User-facing validation errors raised before any request is sent. -/
inductive ErrMsg where
  | fillAllFields
  | correctWeight
deriving DecidableEq

/-- Result of one `calculateTariff()` run, up to the point the POST body is
built: a validation error, the request body, or the TypeError that the
non-null assertions would produce when a converted city is actually null. -/
inductive CalcOutcome where
  | validationError (msg : ErrMsg)
  | request (from_latitude from_longitude to_latitude to_longitude : Option ℚ)
      (weight : ℚ) (tariff_type : Option TariffType)
  | nullCityError
deriving DecidableEq

/-- Source `calculateTariff()` of useRegionBasedTariffCalculator.ts, in the
order of the source: `isFormValid` gate, then the NaN / non-positive weight
gate, then the converted cities are dereferenced to build the POST body. -/
def calculateTariff (apiCities : List City) (form : Form) : CalcOutcome :=
  if isFormValid form = false then .validationError .fillAllFields
  else
    match jsParseFloat form.weight with
    | none => .validationError .correctWeight
    | some w =>
      if w ≤ 0 then .validationError .correctWeight
      else
        match convertedCity apiCities form.originCity,
              convertedCity apiCities form.destinationCity with
        | some originApiCity, some destinationApiCity =>
          .request originApiCity.center_latitude originApiCity.center_longitude
            destinationApiCity.center_latitude destinationApiCity.center_longitude
            w form.tariffType
        | _, _ => .nullCityError

-- ### Helper lemmas

/-- A city name occurring in the list makes the exact-equality `some` scan
succeed. -/
theorem any_city_beq {ws : List Warehouse} {n : String}
    (h : n ∈ ws.map Warehouse.city) : ws.any (fun w => w.city == n) = true := by
  rw [List.any_eq_true]
  rcases List.mem_map.mp h with ⟨w, hw, rfl⟩
  exact ⟨w, hw, by simp⟩

/-- The two name computations of the hook agree: `originCity?.id || null`
fed to `getCityNameById` equals feeding the raw id, since a zero id is
collapsed to null inside `getCityNameById` anyway. -/
theorem getCityNameById_jsOptId (cities : List City) (c : City) :
    getCityNameById cities (jsOptId (some c)) = getCityNameById cities (some c.id) := by
  by_cases h : c.id = 0
  · simp [jsOptId, getCityNameById, h]
  · simp [jsOptId, h]

-- ### Claim C1

/-- Claim C1 counterexample: in useWarehouseCheck.ts the city "Tashkent" is
verbatim in the warehouse list, yet the lowercase query and the
whitespace-padded query both return false — matching is exact, not
case-insensitive or whitespace-tolerant. -/
theorem hasWarehouse_case_variant_cex :
    hasWarehouse [⟨1, "W", "Tashkent"⟩] (some "Tashkent") = true ∧
    hasWarehouse [⟨1, "W", "Tashkent"⟩] (some "tashkent") = false ∧
    hasWarehouse [⟨1, "W", "Tashkent"⟩] (some " Tashkent ") = false := by
  decide

/-- Claim C1 as amended: the exact-match hook returns true exactly for the
verbatim (nonempty) name; case/whitespace tolerance holds only in the
part_001 trim+lowercase variant, whose predicate accepts any query equal to
a listed city up to trimming and lowercasing. -/
theorem hasWarehouse_verbatim_amended :
    (∀ (ws : List Warehouse) (n : String), n ∈ ws.map Warehouse.city → n ≠ "" →
      hasWarehouse ws (some n) = true) ∧
    (∀ (ls : List Warehouse) (n : String), n ∈ ls.map Warehouse.city → n ≠ "" →
      hasLocker ls (some n) = true) ∧
    (∀ (ws : List Warehouse) (n q : String), n ∈ ws.map Warehouse.city → q ≠ "" →
      jsToLower (jsTrim q) = jsToLower (jsTrim n) →
      hasWarehouseNormalized ws (some q) = true) ∧
    (∀ (ls : List Warehouse) (n q : String), n ∈ ls.map Warehouse.city → q ≠ "" →
      jsToLower (jsTrim q) = jsToLower (jsTrim n) →
      hasLockerNormalized ls (some q) = true) := by
  refine ⟨?_, ?_, ?_, ?_⟩
  · intro ws n h hn
    simp only [hasWarehouse, if_neg hn]
    exact any_city_beq h
  · intro ls n h hn
    simp only [hasLocker, if_neg hn]
    exact any_city_beq h
  · intro ws n q h hq heq
    rcases List.mem_map.mp h with ⟨w, hw, hcity⟩
    have hlen : ws.length ≠ 0 := by
      cases ws with
      | nil => cases hw
      | cons a tl => simp
    simp only [hasWarehouseNormalized]
    rw [if_neg (by push_neg; exact ⟨hq, hlen⟩)]
    rw [List.any_eq_true]
    exact ⟨w, hw, by rw [hcity, ← heq]; simp⟩
  · intro ls n q h hq heq
    rcases List.mem_map.mp h with ⟨w, hw, hcity⟩
    have hlen : ls.length ≠ 0 := by
      cases ls with
      | nil => cases hw
      | cons a tl => simp
    simp only [hasLockerNormalized]
    rw [if_neg (by push_neg; exact ⟨hq, hlen⟩)]
    rw [List.any_eq_true]
    exact ⟨w, hw, by rw [hcity, ← heq]; simp⟩

/-- Claim C1 witness: the amended theorem applied to a one-warehouse list,
with the verbatim query on the exact-match hook and a case-and-whitespace
variant on the normalized variant. -/
theorem hasWarehouse_verbatim_amended_witness :
    hasWarehouse [⟨1, "W", "Tashkent"⟩] (some "Tashkent") = true ∧
    hasWarehouseNormalized [⟨1, "W", "Tashkent"⟩] (some " TASHKENT ") = true :=
  ⟨hasWarehouse_verbatim_amended.1 [⟨1, "W", "Tashkent"⟩] "Tashkent"
      (by decide) (by decide),
   hasWarehouse_verbatim_amended.2.2.1 [⟨1, "W", "Tashkent"⟩] "Tashkent" " TASHKENT "
      (by decide) (by decide) (by decide)⟩

-- ### Claim C2

/-- Claim C2 counterexample: `isCalculationDisabled` of the region-based
calculator returns FALSE, not true, when the origin (or the destination)
city is null — the guard defers to other validation. -/
theorem isCalculationDisabled_null_origin_cex :
    isCalculationDisabled [] [] []
      ⟨none, some ⟨2, ⟨"B", "B", "B"⟩⟩, some .officeOffice, "1"⟩ = false ∧
    isCalculationDisabled [] [] []
      ⟨some ⟨1, ⟨"A", "A", "A"⟩⟩, none, some .officeOffice, "1"⟩ = false := by
  decide

/-- Claim C2 as amended: for every tariff type and every availability data,
`shouldDisableCalculation` of useWarehouseCheck.ts returns true whenever the
origin or the destination city is null, while `isCalculationDisabled` of
useRegionBasedTariffCalculator.ts instead returns false in that case. -/
theorem disable_null_fields :
    (∀ (ws ls : List Warehouse) (cities : List City) (loading : Bool)
        (o d : Option City) (tt : Option TariffType), o = none ∨ d = none →
        shouldDisableCalculation ws ls cities loading o d tt = true) ∧
    (∀ (apiCities : List City) (ws ls : List Warehouse) (form : Form),
        form.originCity = none ∨ form.destinationCity = none →
        isCalculationDisabled apiCities ws ls form = false) := by
  constructor
  · intro ws ls cities loading o d tt h
    rcases h with h | h
    · subst h
      cases d <;> cases tt <;> rfl
    · subst h
      cases o <;> cases tt <;> rfl
  · intro apiCities ws ls form h
    rcases form with ⟨oc, dc, tt, w⟩
    rcases h with h | h <;> simp only at h <;> subst h
    · cases dc <;> cases tt <;> rfl
    · cases oc <;> cases tt <;> rfl

/-- Claim C2 witness: the amended theorem at a null origin, for both hooks. -/
theorem disable_null_fields_witness :
    shouldDisableCalculation [] [] [] false none (some ⟨2, "B", none, none⟩)
      (some .doorDoor) = true ∧
    isCalculationDisabled [] [] []
      ⟨none, some ⟨2, ⟨"B", "B", "B"⟩⟩, some .doorDoor, "1"⟩ = false :=
  ⟨disable_null_fields.1 [] [] [] false none (some ⟨2, "B", none, none⟩)
      (some .doorDoor) (Or.inl rfl),
   disable_null_fields.2 [] [] []
      ⟨none, some ⟨2, ⟨"B", "B", "B"⟩⟩, some .doorDoor, "1"⟩ (Or.inl rfl)⟩

-- ### Claim C3

/-- Claim C3 counterexample: OFFICE_POSTAMAT, origin city "A" has a locker
but NO warehouse — the claim says calculation must be disabled, yet
`isCalculationDisabled` returns false, because it accepts a locker at the
origin in place of the required warehouse. -/
theorem officePostamat_origin_locker_cex :
    isCalculationDisabled [⟨1, "A", none, none⟩, ⟨2, "B", none, none⟩] []
      [⟨10, "L1", "A"⟩, ⟨11, "L2", "B"⟩]
      ⟨some ⟨1, ⟨"A", "A", "A"⟩⟩, some ⟨2, ⟨"B", "B", "B"⟩⟩,
        some .officePostamat, "1"⟩ = false ∧
    hasWarehouse [] (some "A") = false := by
  decide

/-- Claim C3 as amended: for OFFICE_POSTAMAT with all fields present and
loading complete, `shouldDisableCalculation` blocks iff the origin lacks a
warehouse or the destination lacks a locker (exactly the claim); but
`isCalculationDisabled` (with both cities resolved) blocks iff the origin has
neither warehouse nor locker, or the destination has neither — a locker at
the origin and a warehouse at the destination DO satisfy it. -/
theorem officePostamat_disable_characterization :
    (∀ (ws ls : List Warehouse) (cities : List City) (o d : City),
      shouldDisableCalculation ws ls cities false (some o) (some d)
          (some .officePostamat) =
        (!hasWarehouse ws (getCityNameById cities (some o.id)) ||
         !hasLocker ls (getCityNameById cities (some d.id)))) ∧
    (∀ (apiCities : List City) (ws ls : List Warehouse) (oc dc : RegionCity)
        (w : String) (co cd : City),
      findApiCityByShipoxId apiCities oc = some co →
      findApiCityByShipoxId apiCities dc = some cd →
      isCalculationDisabled apiCities ws ls
          ⟨some oc, some dc, some .officePostamat, w⟩ =
        (!(hasWarehouse ws (some co.name) || hasLocker ls (some co.name)) ||
         !(hasWarehouse ws (some cd.name) || hasLocker ls (some cd.name)))) := by
  constructor
  · intro ws ls cities o d
    rfl
  · intro apiCities ws ls oc dc w co cd h1 h2
    have hs : jsStartsWith TariffType.officePostamat.str "OFFICE" = true := by decide
    have he1 : jsEndsWith TariffType.officePostamat.str "OFFICE" = false := by decide
    have he2 : jsEndsWith TariffType.officePostamat.str "POSTAMAT" = true := by decide
    simp only [isCalculationDisabled, h1, h2, hs, he1, he2]
    cases how : hasWarehouse ws (some co.name) <;>
      cases hol : hasLocker ls (some co.name) <;>
      cases hdw : hasWarehouse ws (some cd.name) <;>
      cases hdl : hasLocker ls (some cd.name) <;>
      simp

/-- Claim C3 witness: the amended theorem instantiated with a locker-only
origin and a locker-only destination, where the region-based hook does not
block. -/
theorem officePostamat_disable_characterization_witness :
    isCalculationDisabled [⟨1, "A", none, none⟩, ⟨2, "B", none, none⟩] []
        [⟨10, "L", "B"⟩]
        ⟨some ⟨1, ⟨"A", "A", "A"⟩⟩, some ⟨2, ⟨"B", "B", "B"⟩⟩,
          some .officePostamat, "1"⟩ =
      (!(hasWarehouse [] (some "A") || hasLocker [⟨10, "L", "B"⟩] (some "A")) ||
       !(hasWarehouse [] (some "B") || hasLocker [⟨10, "L", "B"⟩] (some "B"))) :=
  officePostamat_disable_characterization.2
    [⟨1, "A", none, none⟩, ⟨2, "B", none, none⟩] [] [⟨10, "L", "B"⟩]
    ⟨1, ⟨"A", "A", "A"⟩⟩ ⟨2, ⟨"B", "B", "B"⟩⟩ "1"
    ⟨1, "A", none, none⟩ ⟨2, "B", none, none⟩ rfl rfl

-- ### Claim C4

/-- Claim C4: for DOOR_DOOR neither disable check ever returns true on any
availability data: `shouldDisableCalculation` with both cities selected and
loading finished, and `isCalculationDisabled` unconditionally. -/
theorem doorDoor_never_blocks :
    (∀ (ws ls : List Warehouse) (cities : List City) (o d : City),
      shouldDisableCalculation ws ls cities false (some o) (some d)
        (some .doorDoor) = false) ∧
    (∀ (apiCities : List City) (ws ls : List Warehouse)
        (oc dc : Option RegionCity) (w : String),
      isCalculationDisabled apiCities ws ls ⟨oc, dc, some .doorDoor, w⟩ = false) := by
  constructor
  · intro ws ls cities o d
    rfl
  · intro apiCities ws ls oc dc w
    cases oc with
    | none => rfl
    | some o =>
      cases dc with
      | none => rfl
      | some d =>
        have h1 : jsStartsWith TariffType.doorDoor.str "OFFICE" = false := by decide
        have h2 : jsEndsWith TariffType.doorDoor.str "OFFICE" = false := by decide
        have h3 : jsEndsWith TariffType.doorDoor.str "POSTAMAT" = false := by decide
        simp only [isCalculationDisabled, h1, h2, h3]
        cases findApiCityByShipoxId apiCities o <;>
          cases findApiCityByShipoxId apiCities d <;> simp

-- ### Claim C5

/-- Claim C5 counterexample: when the warehouses fetch REJECTS (throws), the
lockers fetch's successful response is never stored — the single try/catch
awaits both fetches before either ok-check, so the lockers list stays empty
and `hasLocker` is false even for a city in the fetched list. -/
theorem fetchData_reject_blocks_lockers_cex :
    (fetchData .reject (.ok [⟨1, "L", "Tashkent"⟩])).lockers = [] ∧
    hasLocker (fetchData .reject (.ok [⟨1, "L", "Tashkent"⟩])).lockers
      (some "Tashkent") = false := by
  decide

/-- Claim C5 as amended: a non-OK HTTP response in one fetch does not prevent
the other list from loading — warehouses fetch non-OK plus lockers success
leaves `hasWarehouse` constantly false and `hasLocker` exactly the predicate
over the fetched list, and symmetrically — but a rejected (thrown) fetch on
either side aborts the whole load, leaving both lists empty. -/
theorem fetchData_partial_success :
    ∀ (l : List Warehouse) (n : Option String),
      (fetchData .httpError (.ok l)).warehouses = [] ∧
      (fetchData .httpError (.ok l)).lockers = l ∧
      hasWarehouse (fetchData .httpError (.ok l)).warehouses n = false ∧
      hasLocker (fetchData .httpError (.ok l)).lockers n = hasLocker l n ∧
      (fetchData (.ok l) .httpError).warehouses = l ∧
      (fetchData (.ok l) .httpError).lockers = [] ∧
      (fetchData .reject (.ok l)).warehouses = [] ∧
      (fetchData .reject (.ok l)).lockers = [] ∧
      (fetchData (.ok l) .reject).warehouses = [] ∧
      (fetchData (.ok l) .reject).lockers = [] := by
  intro l n
  refine ⟨rfl, rfl, ?_, rfl, rfl, rfl, rfl, rfl, rfl, rfl⟩
  cases n with
  | none => rfl
  | some s => simp [hasWarehouse, fetchData]

-- ### Claim C6

/-- Claim C6: for OFFICE_OFFICE with a non-null tariff and loading complete,
both requirements failing yields the combined noWarehouses message (never a
single-city message); exactly one failing yields that single message, with
the origin checked before the destination. -/
theorem officeOffice_warning_messages :
    ∀ (ws ls : List Warehouse) (cities : List City) (o d : Option City),
      (hasWarehouse ws (getCityNameById cities (jsOptId o)) = false →
       hasWarehouse ws (getCityNameById cities (jsOptId d)) = false →
       shouldShowWarehouseWarning ws ls cities false o d (some .officeOffice) =
         (true, Msg.noWarehouses)) ∧
      (hasWarehouse ws (getCityNameById cities (jsOptId o)) = false →
       hasWarehouse ws (getCityNameById cities (jsOptId d)) = true →
       shouldShowWarehouseWarning ws ls cities false o d (some .officeOffice) =
         (true, Msg.noOriginWarehouse
           ((getCityNameById cities (jsOptId o)).getD ""))) ∧
      (hasWarehouse ws (getCityNameById cities (jsOptId o)) = true →
       hasWarehouse ws (getCityNameById cities (jsOptId d)) = false →
       shouldShowWarehouseWarning ws ls cities false o d (some .officeOffice) =
         (true, Msg.noDestinationWarehouse
           ((getCityNameById cities (jsOptId d)).getD ""))) := by
  intro ws ls cities o d
  refine ⟨?_, ?_, ?_⟩ <;> intro h1 h2 <;>
    simp [shouldShowWarehouseWarning, h1, h2]

/-- Claim C6 witness: with an empty warehouse list both cities lack a
warehouse and the combined message is returned; with a warehouse only in the
destination city, the origin message is returned. -/
theorem officeOffice_warning_messages_witness :
    shouldShowWarehouseWarning [] [] [⟨1, "A", none, none⟩] false
        (some ⟨1, "A", none, none⟩) none (some .officeOffice) =
      (true, Msg.noWarehouses) ∧
    shouldShowWarehouseWarning [⟨7, "W", "B"⟩] []
        [⟨1, "A", none, none⟩, ⟨2, "B", none, none⟩] false
        (some ⟨1, "A", none, none⟩) (some ⟨2, "B", none, none⟩)
        (some .officeOffice) =
      (true, Msg.noOriginWarehouse "A") :=
  ⟨(officeOffice_warning_messages [] [] [⟨1, "A", none, none⟩]
      (some ⟨1, "A", none, none⟩) none).1 (by decide) (by decide),
   (officeOffice_warning_messages [⟨7, "W", "B"⟩] []
      [⟨1, "A", none, none⟩, ⟨2, "B", none, none⟩]
      (some ⟨1, "A", none, none⟩) (some ⟨2, "B", none, none⟩)).2.1
      (by decide) (by decide)⟩

-- ### Claim C7

/-- Claim C7: `hasWarehouse` and `hasLocker` are total functions that return
false on a null name, on the empty-string name, and on an empty service-point
list. -/
theorem hasWarehouse_hasLocker_null_empty :
    ∀ (ws ls : List Warehouse) (n : Option String),
      hasWarehouse ws none = false ∧
      hasWarehouse ws (some "") = false ∧
      hasWarehouse [] n = false ∧
      hasLocker ls none = false ∧
      hasLocker ls (some "") = false ∧
      hasLocker [] n = false := by
  intro ws ls n
  refine ⟨rfl, by simp [hasWarehouse], ?_, rfl, by simp [hasLocker], ?_⟩ <;>
    cases n <;> simp [hasWarehouse, hasLocker]

-- ### Claim C8

/-- Claim C8: in the exact-match hook, with both cities and the tariff
selected and loading complete, a visible warning always coincides with a
blocked calculation: `shouldShowWarehouseWarning` show=true implies
`shouldDisableCalculation` true on the same inputs. -/
theorem warning_implies_disable :
    ∀ (ws ls : List Warehouse) (cities : List City) (o d : City)
      (tt : TariffType),
      (shouldShowWarehouseWarning ws ls cities false (some o) (some d)
        (some tt)).1 = true →
      shouldDisableCalculation ws ls cities false (some o) (some d)
        (some tt) = true := by
  intro ws ls cities o d tt h
  have ho := getCityNameById_jsOptId cities o
  have hd := getCityNameById_jsOptId cities d
  cases tt <;>
    cases how : hasWarehouse ws (getCityNameById cities (some o.id)) <;>
    cases hdw : hasWarehouse ws (getCityNameById cities (some d.id)) <;>
    cases hdl : hasLocker ls (getCityNameById cities (some d.id)) <;>
    simp_all [shouldShowWarehouseWarning, shouldDisableCalculation, ho, hd,
      how, hdw, hdl]

/-- Claim C8 witness: both cities selected, nothing available, OFFICE_OFFICE:
the warning is visible and the theorem yields a disabled calculation. -/
theorem warning_implies_disable_witness :
    shouldDisableCalculation [] [] [⟨1, "A", none, none⟩, ⟨2, "B", none, none⟩]
      false (some ⟨1, "A", none, none⟩) (some ⟨2, "B", none, none⟩)
      (some .officeOffice) = true :=
  warning_implies_disable [] [] [⟨1, "A", none, none⟩, ⟨2, "B", none, none⟩]
    ⟨1, "A", none, none⟩ ⟨2, "B", none, none⟩ .officeOffice (by decide)

-- ### Claim C9

/-- Claim C9: `createWarehouseWarning` is silent (show=false) for every
tariff type whose string does not contain "OFFICE" — in particular
DOOR_POSTAMAT and DOOR_DOOR — on all availability data; yet
`isCalculationDisabled` does return true for DOOR_POSTAMAT when the
destination city has neither a warehouse nor a locker, so that configuration
blocks calculation without ever showing a warning. -/
theorem createWarehouseWarning_nonOffice_silent :
    (∀ (apiCities : List City) (ws ls : List Warehouse) (language : Lang)
        (oc dc : Option RegionCity) (w : String) (tt : TariffType),
        jsIncludes tt.str "OFFICE" = false →
        (createWarehouseWarning apiCities ws ls language
          ⟨oc, dc, some tt, w⟩).visible = false) ∧
    jsIncludes TariffType.doorPostamat.str "OFFICE" = false ∧
    jsIncludes TariffType.doorDoor.str "OFFICE" = false ∧
    isCalculationDisabled [⟨1, "A", none, none⟩, ⟨2, "B", none, none⟩] [] []
      ⟨some ⟨1, ⟨"A", "A", "A"⟩⟩, some ⟨2, ⟨"B", "B", "B"⟩⟩,
        some .doorPostamat, "1"⟩ = true ∧
    (createWarehouseWarning [⟨1, "A", none, none⟩, ⟨2, "B", none, none⟩] [] []
      .ru ⟨some ⟨1, ⟨"A", "A", "A"⟩⟩, some ⟨2, ⟨"B", "B", "B"⟩⟩,
        some .doorPostamat, "1"⟩).visible = false := by
  refine ⟨?_, by decide, by decide, by decide, by decide⟩
  intro apiCities ws ls language oc dc w tt h
  cases oc with
  | none => rfl
  | some o =>
    cases dc with
    | none => rfl
    | some d =>
      simp only [createWarehouseWarning]
      cases findApiCityByShipoxId apiCities o <;>
        cases findApiCityByShipoxId apiCities d <;> simp [h]

/-- Claim C9 witness: the silence theorem applied to DOOR_DOOR on empty
availability data. -/
theorem createWarehouseWarning_nonOffice_silent_witness :
    (createWarehouseWarning [] [] [] Lang.en
      ⟨some ⟨1, ⟨"A", "A", "A"⟩⟩, some ⟨2, ⟨"B", "B", "B"⟩⟩,
        some .doorDoor, "2"⟩).visible = false :=
  createWarehouseWarning_nonOffice_silent.1 [] [] [] .en
    (some ⟨1, ⟨"A", "A", "A"⟩⟩) (some ⟨2, ⟨"B", "B", "B"⟩⟩) "2" .doorDoor
    (by decide)

-- ### Claim C10

/-- Claim C10: `isFormValid` accepts any weight string whose `parseFloat`
value is a positive number — including strings with trailing non-numeric
characters — and `calculateTariff` then proceeds to build the request with
the parsed numeric prefix as the weight rather than rejecting the input. -/
theorem isFormValid_accepts_numeric_prefix :
    ∀ (apiCities : List City) (oc dc : RegionCity) (tt : TariffType)
      (w : String) (q : ℚ),
      jsParseFloat w = some q → 0 < q → w ≠ "" →
      isFormValid ⟨some oc, some dc, some tt, w⟩ = true ∧
      (∀ (co cd : City),
        findApiCityByShipoxId apiCities oc = some co →
        findApiCityByShipoxId apiCities dc = some cd →
        calculateTariff apiCities ⟨some oc, some dc, some tt, w⟩ =
          CalcOutcome.request co.center_latitude co.center_longitude
            cd.center_latitude cd.center_longitude q (some tt)) := by
  intro apiCities oc dc tt w q hp hq hw
  have hv : isFormValid ⟨some oc, some dc, some tt, w⟩ = true := by
    simp [isFormValid, hp, hw, hq]
  refine ⟨hv, ?_⟩
  intro co cd h1 h2
  simp [calculateTariff, hv, hp, convertedCity, h1, h2, Option.bind, not_le.mpr hq]

/-- Claim C10 witness: the weight string "5abc" passes validation and the
request is sent with weight 5. -/
theorem isFormValid_accepts_numeric_prefix_witness :
    isFormValid ⟨some ⟨1, ⟨"A", "A", "A"⟩⟩, some ⟨2, ⟨"B", "B", "B"⟩⟩,
      some .doorDoor, "5abc"⟩ = true ∧
    calculateTariff [⟨1, "A", some 41, some 69⟩, ⟨2, "B", some 40, some 68⟩]
        ⟨some ⟨1, ⟨"A", "A", "A"⟩⟩, some ⟨2, ⟨"B", "B", "B"⟩⟩,
          some .doorDoor, "5abc"⟩ =
      CalcOutcome.request (some 41) (some 69) (some 40) (some 68) 5
        (some .doorDoor) := by
  have h := isFormValid_accepts_numeric_prefix
    [⟨1, "A", some 41, some 69⟩, ⟨2, "B", some 40, some 68⟩]
    ⟨1, ⟨"A", "A", "A"⟩⟩ ⟨2, ⟨"B", "B", "B"⟩⟩ .doorDoor "5abc" 5
    (by decide) (by decide) (by decide)
  exact ⟨h.1, h.2 ⟨1, "A", some 41, some 69⟩ ⟨2, "B", some 40, some 68⟩ rfl rfl⟩
